import Mathlib

/-!
Shallow embedding of the `errors` Go package (error-enrichment utility):
the `Error` value model, stack capture/rendering, chain traversal, and the
sentinel registry, together with proofs of the spec's testable properties.
-/

namespace GoErrors

/-- A resolved stack frame, as produced by `runtime.CallersFrames`:
the symbolised function name, source file and line of one captured
program counter.  The Go code stores raw program counters (`Stack []uintptr`);
rendering resolves each to such a frame, so the embedding models a captured
stack as the list of frames it resolves to. -/
structure Frame where
  function : String
  file : String
  line : Nat
deriving DecidableEq

/-- A captured call stack (`type Stack []uintptr` after symbolisation),
ordered most recent call first. -/
abbrev Stack := List Frame

/-- Tags for the ten predefined sentinel errors of the package
(declared in the `var` block of the sentinel file).  Each sentinel is a
distinct `*Error` allocation; the tag models its pointer identity. -/
inductive Sentinel where
  | badRequest
  | unauthorized
  | registrationRequired
  | paymentError
  | forbiddenAction
  | notFound
  | conflict
  | preconditionFailed
  | validation
  | internalServerError
deriving DecidableEq

/-- A (non-nil) Go `error` interface value, as far as this package is
concerned:
* `fwErr` — a `*Error` of this package: exported `Description`, the unexported
  wrapped `error` field (`none` models a nil cause) and the optional captured
  `stack`.  The `id` field models pointer identity of the ten sentinel
  singletons: exactly the registry's singletons carry `some s`, every other
  construction site carries `none`, so `id = some s` holds iff the value is
  that very singleton allocation.
* `stdErr` — a foreign leaf error (e.g. `errors.New` of the standard library):
  a message, no `Unwrap` method.
* `wrapErr` — a `*fmt.wrapError` produced by `fmt.Errorf` with one `%w` verb:
  the eagerly formatted message and the wrapped cause.
A nil Go `error` is modelled as `none : Option GoErr`. -/
inductive GoErr where
  | fwErr (id : Option Sentinel) (Description : String) (cause : Option GoErr)
      (stack : Option Stack)
  | stdErr (msg : String)
  | wrapErr (msg : String) (cause : GoErr)

/-- `(*Error).Unwrap` together with the unwrap behaviour of the other error
kinds: a `*Error` exposes its wrapped `error` field, a `fmt.Errorf` wrap
error exposes its `%w` argument, a foreign leaf has no `Unwrap` method. -/
def GoErr.unwrap : GoErr → Option GoErr
  | .fwErr _ _ cause _ => cause
  | .stdErr _ => none
  | .wrapErr _ cause => some cause

/-- `errors.Unwrap` (re-exported by the package as `Unwrap`): nil in, nil
out; otherwise call the `Unwrap` method when present. -/
def Unwrap : Option GoErr → Option GoErr
  | none => none
  | some e => e.unwrap

/-- `(*Error).Error` together with the `Error()` methods of the other error
kinds: a `*Error` with nil cause renders exactly its `Description`, with a
non-nil cause it renders `Description + ": " + cause.Error()`; leaf and
`fmt` wrap errors render their stored message. -/
def errorString : GoErr → String
  | .fwErr _ d none _ => d
  | .fwErr _ d (some c) _ => d ++ ": " ++ errorString c
  | .stdErr m => m
  | .wrapErr m _ => m

/-- How `fmt`'s `%v`/`%w` verbs render an error: `*Error` implements
`fmt.Formatter` via `(*Error).Format`, which writes only `e.Description`
(ignoring the cause); other errors render via `Error()`. -/
def fmtV : GoErr → String
  | .fwErr _ d _ _ => d
  | .stdErr m => m
  | .wrapErr m _ => m

/-- Description text of each predefined sentinel, from the sentinel
`var` block (`ErrBadRequest = New("bad request")`, ...). -/
def sentinelDescription : Sentinel → String
  | .badRequest => "bad request"
  | .unauthorized => "user unauthorized"
  | .registrationRequired => "registration required"
  | .paymentError => "payment error"
  | .forbiddenAction => "forbidden"
  | .notFound => "entity not found"
  | .conflict => "conflict request"
  | .preconditionFailed => "precondition failed"
  | .validation => "validation failed"
  | .internalServerError => "internal server error"

/-- One sentinel singleton: `New(description)` evaluated once at process
start; the `id` tag records which singleton allocation this is. -/
def sentinelErr (s : Sentinel) : GoErr :=
  .fwErr (some s) (sentinelDescription s) none none

/-- `ErrBadRequest = New("bad request")`. -/
def ErrBadRequest : GoErr := sentinelErr .badRequest
/-- `ErrUnauthorized = New("user unauthorized")`. -/
def ErrUnauthorized : GoErr := sentinelErr .unauthorized
/-- `ErrRegistrationRequired = New("registration required")`. -/
def ErrRegistrationRequired : GoErr := sentinelErr .registrationRequired
/-- `ErrPaymentError = New("payment error")`. -/
def ErrPaymentError : GoErr := sentinelErr .paymentError
/-- `ErrForbiddenAction = New("forbidden")`. -/
def ErrForbiddenAction : GoErr := sentinelErr .forbiddenAction
/-- `ErrNotFound = New("entity not found")`. -/
def ErrNotFound : GoErr := sentinelErr .notFound
/-- `ErrConflict = New("conflict request")`. -/
def ErrConflict : GoErr := sentinelErr .conflict
/-- `ErrPreconditionFailed = New("precondition failed")`. -/
def ErrPreconditionFailed : GoErr := sentinelErr .preconditionFailed
/-- `ErrValidation = New("validation failed")`. -/
def ErrValidation : GoErr := sentinelErr .validation
/-- `ErrInternalServerError = New("internal server error")`. -/
def ErrInternalServerError : GoErr := sentinelErr .internalServerError

/-- Whether a chain link `e` is (pointer-)equal to the sentinel singleton
tagged `s`: Go's `err == target` compares interface pointers, and only the
registry's singletons carry an `id` tag. -/
def GoErr.eqSentinel : GoErr → Sentinel → Bool
  | .fwErr id _ _ _, s => id == some s
  | .stdErr _, _ => false
  | .wrapErr _ _, _ => false

/-- `errors.Is(e, target)` for a sentinel target (the only targets this
package compares against): walk the unwrap chain from `e`, comparing each
link with the sentinel singleton; neither `*Error` nor the sentinels define
an `Is` method, so only `==` applies. -/
def goIs (e : GoErr) (s : Sentinel) : Bool :=
  e.eqSentinel s ||
    match e with
    | .fwErr _ _ (some c) _ => goIs c s
    | .fwErr _ _ none _ => false
    | .stdErr _ => false
    | .wrapErr _ c => goIs c s

/-- `errors.Is` (re-exported as `Is`) at a possibly-nil first argument. -/
def Is (e : Option GoErr) (s : Sentinel) : Bool :=
  match e with
  | none => false
  | some x => goIs x s

/-- `errors.As(e, &frameworkErr)` for target type `*Error`: walk the unwrap
chain from `e` and return the first link whose dynamic type is `*Error`
(i.e. a `fwErr`), or `none` when the chain has no such link. -/
def goAs : GoErr → Option GoErr
  | e@(.fwErr _ _ _ _) => some e
  | .stdErr _ => none
  | .wrapErr _ c => goAs c

/-- `New(description)`: a `*Error` with only the description set. -/
def New (description : String) : GoErr :=
  .fwErr none description none none

/-- `NewWithStack(description)`: a `*Error` with the description and the
stack captured by `callers()` at the call site; the ambient captured stack
is passed as `capturedStack`. -/
def NewWithStack (description : String) (capturedStack : Stack) : GoErr :=
  .fwErr none description none (some capturedStack)

/-- `Newf(format, args...)`: a `*Error` whose description is the formatted
text; the embedding takes the already-formatted string
`fmt.Sprintf(format, args...)`. -/
def Newf (formatedDescription : String) : GoErr :=
  .fwErr none formatedDescription none none

/-- `Wrap(err, description)`: nil in, nil out; otherwise a `*Error` with the
description, a fresh stack capture and `err` as wrapped cause. -/
def Wrap (err : Option GoErr) (description : String) (capturedStack : Stack) :
    Option GoErr :=
  match err with
  | none => none
  | some e => some (.fwErr none description (some e) (some capturedStack))

/-- `Wrapf(err, format, args...)`: like `Wrap` with a formatted description;
the embedding takes the already-formatted string `fmt.Sprintf(format, args...)`. -/
def Wrapf (err : Option GoErr) (formatted : String) (capturedStack : Stack) :
    Option GoErr :=
  match err with
  | none => none
  | some e => some (.fwErr none formatted (some e) (some capturedStack))

/-- The composite `fmt.Errorf("%w: %v", wrappingErr, originalErr)`: the
message renders both errors with `fmt`'s verbs (for a `*Error` that is its
`Format` method, which prints only the description) and only `wrappingErr`
is wrapped (`%w`). -/
def customErrComposite (wrappingErr originalErr : GoErr) : GoErr :=
  .wrapErr (fmtV wrappingErr ++ ": " ++ fmtV originalErr) wrappingErr

/-- `WrapfWithCustomErr(originalErr, wrappingErr, format, args...)`: nil in,
nil out; otherwise a `*Error` whose description is the formatted text and
whose cause is the `fmt.Errorf("%w: %v", ...)` composite.  The embedding
takes the already-formatted description and a non-nil `wrappingErr` (the
package only passes its sentinel singletons there). -/
def WrapfWithCustomErr (originalErr : Option GoErr) (wrappingErr : GoErr)
    (formatted : String) (capturedStack : Stack) : Option GoErr :=
  match originalErr with
  | none => none
  | some o =>
      some (.fwErr none formatted (some (customErrComposite wrappingErr o))
        (some capturedStack))

/-- `WrapWithCustomErr(originalErr, wrappingErr)`: nil in, nil out;
otherwise a `*Error` with empty description, a fresh stack capture and the
`fmt.Errorf("%w: %v", ...)` composite as cause. -/
def WrapWithCustomErr (originalErr : Option GoErr) (wrappingErr : GoErr)
    (capturedStack : Stack) : Option GoErr :=
  match originalErr with
  | none => none
  | some o =>
      some (.fwErr none "" (some (customErrComposite wrappingErr o))
        (some capturedStack))

/-- `AddCustomCallStack(err, callStack)`: nil in, nil out; otherwise a
`*Error` whose description is `err.Error()`, whose stack is the provided
(possibly nil) `*Stack`, and whose cause is `err`. -/
def AddCustomCallStack (err : Option GoErr) (callStack : Option Stack) :
    Option GoErr :=
  match err with
  | none => none
  | some e => some (.fwErr none (errorString e) (some e) callStack)

/-- Unwrapping strictly decreases the size of an error value: the cause is a
structural subterm.  Used for termination of the chain-walking loops. -/
theorem sizeOf_lt_of_unwrap {e e' : GoErr} (h : e.unwrap = some e') :
    sizeOf e' < sizeOf e := by
  cases e with
  | fwErr id d cause st =>
    cases cause with
    | none => simp [GoErr.unwrap] at h
    | some c =>
      simp [GoErr.unwrap] at h
      subst h
      simp
      omega
  | stdErr m => simp [GoErr.unwrap] at h
  | wrapErr m c =>
    simp [GoErr.unwrap] at h
    subst h
    simp

/-- One formatted call-stack frame:
`fmt.Sprintf("%s\n\t%s:%d", frame.Function, frame.File, frame.Line)`. -/
def formatFrame (f : Frame) : String :=
  f.function ++ "\n\t" ++ f.file ++ ":" ++ toString f.line

/-- The rendering loop of `GetCallStack`: `runtime.CallersFrames(...).Next()`
is called once unconditionally (on an empty capture it yields the zero
`Frame` with `more = false`); the loop breaks before appending when the
frame's function is `"unknown"`, appends the formatted frame otherwise, and
breaks after the last frame (`more = false`). -/
def renderStack : List Frame → List String
  | [] => [formatFrame { function := "", file := "", line := 0 }]
  | [f] => if f.function = "unknown" then [] else [formatFrame f]
  | f :: g :: rest =>
      if f.function = "unknown" then []
      else formatFrame f :: renderStack (g :: rest)

/-- `(*Error).GetCallStack`: a nil receiver and a nil `stack` field both
yield nil; otherwise the captured stack is rendered (the result is a
non-nil slice even when the rendering loop appends nothing). -/
def GetCallStack : Option GoErr → Option (List String)
  | none => none
  | some (.fwErr _ _ _ none) => none
  | some (.fwErr _ _ _ (some st)) => some (renderStack st)
  | some _ => none  -- unreachable: the receiver is always a *Error

/-- `(*Error).Message`: the description when non-empty, else
`e.error.Error()`; with an empty description and a nil cause the method
calls `Error()` on a nil interface and panics (modelled as `none`). -/
def Message : GoErr → Option String
  | .fwErr _ d cause _ =>
      if d = "" then
        match cause with
        | some c => some (errorString c)
        | none => none  -- e.error.Error() on a nil interface: panic
      else some d
  | _ => none  -- unreachable: the receiver is always a *Error

/-- The deepest error reachable from `e` by repeatedly unwrapping. -/
def deepestFrom (e : GoErr) : GoErr :=
  match h : e.unwrap with
  | none => e
  | some c => deepestFrom c
termination_by sizeOf e
decreasing_by exact sizeOf_lt_of_unwrap h

/-- The `originalErr` left by the loop
`for err := Unwrap(e.error); err != nil; err = Unwrap(err)`:
the last non-nil link of the iterated unwrap sequence that starts one step
below `start`, or `none` when that sequence is empty. -/
def lastUnwrapped (start : Option GoErr) : Option GoErr :=
  match start with
  | none => none
  | some e =>
      match e.unwrap with
      | none => none
      | some c => some (deepestFrom c)

/-- `(*Error).GetOriginalErrorMessage`: find the deepest cause by repeated
unwrapping; with an empty description return the deepest cause's message,
falling back to the immediate wrapped error's message; with a non-empty
description prefix it with `description + ": "`.  Calling `Error()` on a nil
wrapped error would panic (modelled as `none`). -/
def GetOriginalErrorMessage : GoErr → Option String
  | .fwErr _ d cause _ =>
      let originalErr := lastUnwrapped cause
      if d = "" then
        match originalErr with
        | some o => some (errorString o)
        | none =>
            match cause with
            | some c => some (errorString c)
            | none => none  -- e.error.Error() on a nil interface: panic
      else
        match originalErr with
        | some o => some (d ++ ": " ++ errorString o)
        | none =>
            match cause with
            | some c => some (d ++ ": " ++ errorString c)
            | none => none  -- errToUse.Error() on a nil interface: panic
  | _ => none  -- unreachable: the receiver is always a *Error

/-- `(*Error).Wrap(err)`: nil `err` or an empty receiver description yields
nil; otherwise a new `*Error` with the receiver's description, the wrapped
error and a fresh stack capture. -/
def GoErr.Wrap : GoErr → Option GoErr → Stack → Option GoErr
  | .fwErr _ d _ _, err, capturedStack =>
      match err with
      | none => none
      | some x =>
          if d = "" then none
          else some (.fwErr none d (some x) (some capturedStack))
  | _, _, _ => none  -- unreachable: the receiver is always a *Error

/-- `(*Error).Wrapf(format, err)`: nil `err` or an empty receiver
description yields nil; otherwise the new `*Error` is wrapped once more by
`fmt.Errorf(format+" :%w", er)` (the embedding takes `format` as literal
text, as in the package's own uses). -/
def GoErr.Wrapf : GoErr → String → Option GoErr → Stack → Option GoErr
  | .fwErr _ d _ _, format, err, capturedStack =>
      match err with
      | none => none
      | some x =>
          if d = "" then none
          else
            let er : GoErr := .fwErr none d (some x) (some capturedStack)
            some (.wrapErr (format ++ " :" ++ fmtV er) er)
  | _, _, _, _ => none  -- unreachable: the receiver is always a *Error

/-- `Is(err, s)` against every sentinel of the registry, in the order of the
`switch` in `GetOriginalPredefinedError`. -/
def anySentinel (e : GoErr) : Bool :=
  goIs e .badRequest || goIs e .unauthorized || goIs e .registrationRequired ||
    goIs e .paymentError || goIs e .forbiddenAction || goIs e .notFound ||
    goIs e .conflict || goIs e .preconditionFailed || goIs e .validation ||
    goIs e .internalServerError

/-- The loop of `GetOriginalPredefinedError`: while the current link matches
a sentinel category, remember it and unwrap further; on the first non-sentinel
link return the last remembered value; when the chain ends, return it. -/
def predefLoop (predefinedErr : Option GoErr) (err : GoErr) : Option GoErr :=
  if anySentinel err then
    match h : err.unwrap with
    | none => some err
    | some next => predefLoop (some err) next
  else predefinedErr
termination_by sizeOf err
decreasing_by exact sizeOf_lt_of_unwrap h

/-- `(*Error).GetOriginalPredefinedError`: start with `predefinedErr =
e.error` and run `predefLoop` over the chain below `e.error`. -/
def GetOriginalPredefinedError : GoErr → Option GoErr
  | .fwErr _ _ cause _ =>
      match cause with
      | none => none  -- the loop never runs; return predefinedErr = e.error
      | some c =>
          match c.unwrap with
          | none => some c  -- the loop never runs; return predefinedErr
          | some first => predefLoop (some c) first
  | _ => none  -- unreachable: the receiver is always a *Error

/-- The loop of `FindOriginalErrorWithStack`: at each link, if `errors.As`
finds a `*Error` in the link's chain and that error's `GetCallStack()` is
non-nil, remember it; then unwrap and continue; return the last remembered
value at the end of the chain. -/
def findOriginalAux (last : Option GoErr) (current : GoErr) : Option GoErr :=
  let last' :=
    match goAs current with
    | some f => if (GetCallStack (some f)).isSome then some f else last
    | none => last
  match h : current.unwrap with
  | none => last'
  | some next => findOriginalAux last' next
termination_by sizeOf current
decreasing_by exact sizeOf_lt_of_unwrap h

/-- `FindOriginalErrorWithStack(err)`: nil input yields nil without
iterating; otherwise run the remembering loop over the whole chain. -/
def FindOriginalErrorWithStack (err : Option GoErr) : Option GoErr :=
  match err with
  | none => none
  | some e => findOriginalAux none e

/-- The loop of `FindFirstErrorWithStack`: return the first link at which
`errors.As` finds a `*Error`; otherwise unwrap and continue; at the end of
the chain return the (nil) current value. -/
def findFirstAux (current : GoErr) : Option GoErr :=
  match goAs current with
  | some f => some f
  | none =>
      match h : current.unwrap with
      | none => none  -- loop exhausted: `return current` with current = nil
      | some next => findFirstAux next
termination_by sizeOf current
decreasing_by exact sizeOf_lt_of_unwrap h

/-- `FindFirstErrorWithStack(err)`: nil input yields nil without iterating. -/
def FindFirstErrorWithStack (err : Option GoErr) : Option GoErr :=
  match err with
  | none => none
  | some e => findFirstAux e

/-- One application of a wrap-family operation that adds a single chain
link around its primary error: `Wrap(err, d)`, `Wrapf(err, format, args...)`
or `AddCustomCallStack(err, stack)`. -/
inductive WrapStep where
  | wrapStep (description : String) (capturedStack : Stack)
  | wrapfStep (formatted : String) (capturedStack : Stack)
  | addStackStep (callStack : Option Stack)

/-- Apply one wrap-family operation to a (possibly nil) error. -/
def applyWrapStep : WrapStep → Option GoErr → Option GoErr
  | .wrapStep d cs, err => Wrap err d cs
  | .wrapfStep f cs, err => Wrapf err f cs
  | .addStackStep st, err => AddCustomCallStack err st

/-- Apply a sequence of wrap-family operations, innermost last: the head of
the list is the outermost wrap. -/
def applyWrapSteps : List WrapStep → Option GoErr → Option GoErr
  | [], err => err
  | s :: rest, err => applyWrapStep s (applyWrapSteps rest err)

/-- The length of the unwrap chain strictly below `e`. -/
def unwrapDepth (e : GoErr) : Nat :=
  match h : e.unwrap with
  | none => 0
  | some c => unwrapDepth c + 1
termination_by sizeOf e
decreasing_by exact sizeOf_lt_of_unwrap h

/-- Each single-link wrap operation applied to a non-nil error produces a
`*Error` whose cause is exactly that error. -/
theorem applyWrapStep_shape (s : WrapStep) (e : GoErr) :
    ∃ d st', applyWrapStep s (some e) = some (.fwErr none d (some e) st') := by
  cases s with
  | wrapStep d cs => exact ⟨d, some cs, rfl⟩
  | wrapfStep f cs => exact ⟨f, some cs, rfl⟩
  | addStackStep st => exact ⟨errorString e, st, rfl⟩

/-- A sequence of single-link wraps around a non-nil error never yields nil. -/
theorem applyWrapSteps_isSome (steps : List WrapStep) (e : GoErr) :
    ∃ r, applyWrapSteps steps (some e) = some r := by
  induction steps with
  | nil => exact ⟨e, rfl⟩
  | cons s rest ih =>
    obtain ⟨r, hr⟩ := ih
    obtain ⟨d, st', hs⟩ := applyWrapStep_shape s r
    exact ⟨_, by rw [applyWrapSteps, hr, hs]⟩

/-- Unwrapping undoes one single-link wrap. -/
theorem unwrap_applyWrapStep (s : WrapStep) (r : GoErr) :
    Unwrap (applyWrapStep s (some r)) = some r := by
  cases s <;> rfl

/-- A single-link wrap increases the unwrap depth by exactly one. -/
theorem unwrapDepth_applyWrapStep (s : WrapStep) (r r' : GoErr)
    (h : applyWrapStep s (some r) = some r') :
    unwrapDepth r' = unwrapDepth r + 1 := by
  obtain ⟨d, st', hs⟩ := applyWrapStep_shape s r
  rw [hs] at h
  injection h with h'
  subst h'
  rw [unwrapDepth]
  simp [GoErr.unwrap]

/-- Wrapping `n` times increases the unwrap depth by exactly `n`. -/
theorem unwrapDepth_applyWrapSteps (steps : List WrapStep) (e : GoErr) :
    ∀ r, applyWrapSteps steps (some e) = some r →
      unwrapDepth r = steps.length + unwrapDepth e := by
  induction steps with
  | nil =>
    intro r h
    injection h with h'
    subst h'
    simp
  | cons s rest ih =>
    intro r h
    obtain ⟨r0, hr0⟩ := applyWrapSteps_isSome rest e
    rw [applyWrapSteps, hr0] at h
    have hstep := unwrapDepth_applyWrapStep s r0 r h
    have hrest := ih r0 hr0
    simp [hstep, hrest]
    omega

/-- Unwrapping `k ≤ n` times after wrapping `n` times leaves exactly the
last `n - k` wraps around the original error. -/
theorem iterate_unwrap_applyWrapSteps (e : GoErr) (k : Nat) :
    ∀ steps : List WrapStep, k ≤ steps.length →
      Unwrap^[k] (applyWrapSteps steps (some e))
        = applyWrapSteps (steps.drop k) (some e) := by
  induction k with
  | zero => intro steps _; simp
  | succ k ih =>
    intro steps hk
    cases steps with
    | nil => simp at hk
    | cons s rest =>
      obtain ⟨r0, hr0⟩ := applyWrapSteps_isSome rest e
      have h2 : Unwrap (applyWrapSteps (s :: rest) (some e))
          = applyWrapSteps rest (some e) := by
        rw [applyWrapSteps, hr0, unwrap_applyWrapStep]
      rw [Function.iterate_succ_apply, h2, ih rest (Nat.le_of_succ_le_succ hk)]
      simp

/-- The rendering loop of `GetCallStack` on a non-empty capture formats the
frames in order, keeping exactly the longest unknown-free initial segment. -/
theorem renderStack_eq_takeWhile :
    ∀ st : Stack, st ≠ [] →
      renderStack st
        = (st.takeWhile (fun f => f.function != "unknown")).map formatFrame := by
  intro st
  induction st with
  | nil => intro h; exact absurd rfl h
  | cons f rest ih =>
    intro _
    cases rest with
    | nil =>
      by_cases hf : f.function = "unknown"
      · simp [renderStack, List.takeWhile, hf, bne]
      · have hb : (f.function != "unknown") = true := by simp [bne, hf]
        simp [renderStack, List.takeWhile, hf, hb]
    | cons g rest' =>
      by_cases hf : f.function = "unknown"
      · simp [renderStack, List.takeWhile, hf, bne]
      · rw [renderStack, if_neg hf, ih (by simp)]
        have hb : (f.function != "unknown") = true := by simp [bne, hf]
        simp [List.takeWhile, hb]

/-- C1: rendering a framework error with a nil cause returns exactly the
description; with a non-nil cause it returns `description + ": " +
cause.Error()`; and for every non-nil `err` and description `d`,
`Wrap(err, d).Unwrap() == err` and `Wrap(err, d).Error() == d + ": " +
err.Error()`. -/
theorem C1_rendering_and_wrap_roundtrip (id : Option Sentinel) (d : String)
    (st : Option Stack) (c err : GoErr) (d' : String) (cs : Stack) :
    errorString (.fwErr id d none st) = d ∧
    errorString (.fwErr id d (some c) st) = d ++ ": " ++ errorString c ∧
    Unwrap (Wrap (some err) d' cs) = some err ∧
    (Wrap (some err) d' cs).map errorString
      = some (d' ++ ": " ++ errorString err) :=
  ⟨rfl, rfl, rfl, rfl⟩

/-- C2: every wrap-family function (`Wrap`, `Wrapf`, `WrapWithCustomErr`,
`WrapfWithCustomErr`, `AddCustomCallStack`) returns nil whenever its primary
error argument is nil, for all values of the other arguments. -/
theorem C2_wrap_family_nil_safety (d fmtd : String) (cs : Stack) (w : GoErr)
    (stOpt : Option Stack) :
    Wrap none d cs = none ∧
    Wrapf none fmtd cs = none ∧
    WrapWithCustomErr none w cs = none ∧
    WrapfWithCustomErr none w fmtd cs = none ∧
    AddCustomCallStack none stOpt = none :=
  ⟨rfl, rfl, rfl, rfl, rfl⟩

/-- C3: on a chain `A -> B -> C` where only `A` and `C` are framework errors
with captured stacks (`B` a plain wrapping error), `FindOriginalErrorWithStack(A)`
returns `C` — the innermost qualifying error, since the traversal walks
outer-to-inner and overwrites the remembered value — and
`FindFirstErrorWithStack(A)` returns `A`; both return nil on nil input. -/
theorem C3_find_stack_traversal (dA dC msgB : String) (stA stC : Stack) :
    FindOriginalErrorWithStack
        (some (.fwErr none dA
          (some (.wrapErr msgB (.fwErr none dC none (some stC)))) (some stA)))
      = some (.fwErr none dC none (some stC)) ∧
    FindFirstErrorWithStack
        (some (.fwErr none dA
          (some (.wrapErr msgB (.fwErr none dC none (some stC)))) (some stA)))
      = some (.fwErr none dA
          (some (.wrapErr msgB (.fwErr none dC none (some stC)))) (some stA)) ∧
    FindOriginalErrorWithStack none = none ∧
    FindFirstErrorWithStack none = none := by
  refine ⟨?_, ?_, rfl, rfl⟩
  · simp [FindOriginalErrorWithStack, findOriginalAux, goAs, GoErr.unwrap,
      GetCallStack]
  · simp [FindFirstErrorWithStack, findFirstAux, goAs]

/-- C4: wrapping a non-nil error with `WrapWithCustomErr(err, ErrNotFound)`
yields a result matched by `Is(result, ErrNotFound)` whose
`GetOriginalPredefinedError()` is `ErrNotFound`; and
`WrapfWithCustomErr(sqlErr, ErrNotFound, "user %d missing", 42)` yields a
result matched by `Is(result, ErrNotFound)` whose `Error()` string begins
with `"user 42 missing: "`. -/
theorem C4_sentinel_wrap (err sqlErr : GoErr) (cs cs' : Stack) :
    Is (WrapWithCustomErr (some err) ErrNotFound cs) .notFound = true ∧
    (WrapWithCustomErr (some err) ErrNotFound cs).bind GetOriginalPredefinedError
      = some ErrNotFound ∧
    Is (WrapfWithCustomErr (some sqlErr) ErrNotFound "user 42 missing" cs')
        .notFound = true ∧
    ∃ rest, (WrapfWithCustomErr (some sqlErr) ErrNotFound "user 42 missing" cs').map
        errorString = some ("user 42 missing: " ++ rest) := by
  refine ⟨?_, ?_, ?_, ?_⟩
  · simp [WrapWithCustomErr, Is, goIs, customErrComposite, ErrNotFound,
      sentinelErr, GoErr.eqSentinel]
  · have h2 : (WrapWithCustomErr (some err) ErrNotFound cs).bind
        GetOriginalPredefinedError
        = predefLoop (some (customErrComposite ErrNotFound err)) ErrNotFound := rfl
    rw [h2, predefLoop]
    simp [anySentinel, goIs, GoErr.eqSentinel, ErrNotFound, sentinelErr,
      GoErr.unwrap]
  · simp [WrapfWithCustomErr, Is, goIs, customErrComposite, ErrNotFound,
      sentinelErr, GoErr.eqSentinel]
  · exact ⟨"entity not found: " ++ fmtV sqlErr, rfl⟩

/-- C5 counterexample: with no cause at all, `GetOriginalErrorMessage` does
not behave like `Message()` without a description prefix — the code calls
`Error()` on the nil wrapped interface and panics (modelled as `none`),
while `Message()` and `Error()` both return the description. -/
theorem C5_nil_cause_counterexample :
    GetOriginalErrorMessage (.fwErr none "boom" none none) = none ∧
    Message (.fwErr none "boom" none none) = some "boom" ∧
    errorString (.fwErr none "boom" none none) = "boom" :=
  ⟨rfl, rfl, rfl⟩

/-- C5 amended: with a non-nil immediate cause, `GetOriginalErrorMessage`
renders the deepest entry of the cause chain (found by repeated unwrapping,
the immediate cause itself when nothing deeper unwraps): with a non-empty
description the result is `description + ": " + deepest.Error()`, with an
empty description it is the deepest cause's message directly — the
deepest-found entry takes priority, and the immediate wrapped error is used
exactly when no deeper cause exists.  With no cause at all the method does
not behave like `message()`: it calls `Error()` on a nil interface and
panics (modelled as `none`). -/
theorem C5_original_error_message_amended (id : Option Sentinel) (d : String)
    (c : GoErr) (st : Option Stack) :
    GetOriginalErrorMessage (.fwErr id d (some c) st)
      = some (if d = "" then errorString (deepestFrom c)
              else d ++ ": " ++ errorString (deepestFrom c)) ∧
    (c.unwrap = none → deepestFrom c = c) ∧
    GetOriginalErrorMessage (.fwErr id d none st) = none := by
  refine ⟨?_, ?_, ?_⟩
  · cases hc : c.unwrap with
    | none =>
      have hdc : deepestFrom c = c := by
        rw [deepestFrom]; split <;> simp_all
      by_cases hd : d = "" <;>
        simp [GetOriginalErrorMessage, lastUnwrapped, hc, hd, hdc]
    | some x =>
      have hdc : deepestFrom c = deepestFrom x := by
        rw [deepestFrom]; split <;> simp_all
      by_cases hd : d = "" <;>
        simp [GetOriginalErrorMessage, lastUnwrapped, hc, hd, hdc]
  · intro h
    rw [deepestFrom]
    split <;> simp_all
  · by_cases hd : d = "" <;>
      simp [GetOriginalErrorMessage, lastUnwrapped, hd]

/-- C5 witness: a concrete instance of `C5_original_error_message_amended`,
with the no-deeper-cause hypothesis discharged at a leaf cause. -/
theorem C5_original_error_message_amended_witness :
    GetOriginalErrorMessage (.fwErr none "ctx" (some (.stdErr "io")) none)
      = some (if ("ctx" : String) = "" then errorString (deepestFrom (.stdErr "io"))
              else "ctx" ++ ": " ++ errorString (deepestFrom (.stdErr "io"))) ∧
    deepestFrom (.stdErr "io") = .stdErr "io" ∧
    GetOriginalErrorMessage (.fwErr none "ctx" none none) = none :=
  ⟨(C5_original_error_message_amended none "ctx" (.stdErr "io") none).1,
   (C5_original_error_message_amended none "ctx" (.stdErr "io") none).2.1 rfl,
   (C5_original_error_message_amended none "ctx" (.stdErr "io") none).2.2⟩

/-- C6 counterexample: on the corner case of an empty description and a nil
cause, `Message()` calls `Error()` on a nil interface and panics (modelled
as `none`) — it does not return the recommended deterministic result, nor
any result at all. -/
theorem C6_message_counterexample : Message (.fwErr none "" none none) = none :=
  rfl

/-- C6 amended: `Message()` returns the description when it is non-empty and
otherwise returns the cause's message; but on the corner case where the
description is empty and the cause is nil it panics (nil-interface method
call) instead of returning a deterministic value. -/
theorem C6_message_amended (id : Option Sentinel) (st : Option Stack)
    (d : String) (c : GoErr) (hd : d ≠ "") :
    Message (.fwErr id d (some c) st) = some d ∧
    Message (.fwErr id d none st) = some d ∧
    Message (.fwErr id "" (some c) st) = some (errorString c) ∧
    Message (.fwErr id "" none st) = none := by
  refine ⟨?_, ?_, ?_, ?_⟩ <;> simp [Message, hd]

/-- C6 witness: a concrete instance of `C6_message_amended`. -/
theorem C6_message_amended_witness :
    Message (.fwErr none "x" (some (.stdErr "y")) none) = some "x" ∧
    Message (.fwErr none "x" none none) = some "x" ∧
    Message (.fwErr none "" (some (.stdErr "y")) none)
      = some (errorString (.stdErr "y")) ∧
    Message (.fwErr none "" none none) = none :=
  C6_message_amended none none "x" (.stdErr "y") (by decide)

/-- C7: `GetCallStack()` returns nil when no stack was captured (`New`), and
a non-nil, non-empty sequence for `NewWithStack` whose frames are formatted
as `"<function>\n\t<file>:<line>"` in capture order (most recent call
first); in general the rendering keeps exactly the frames up to the first
one resolving to an unknown function. -/
theorem C7_get_call_stack (d : String) (st st' : Stack) (hne : st ≠ [])
    (hall : ∀ f ∈ st, f.function ≠ "unknown") (hne' : st' ≠ []) :
    GetCallStack (some (New d)) = none ∧
    GetCallStack (some (NewWithStack d st))
      = some (st.map (fun f => f.function ++ "\n\t" ++ f.file ++ ":" ++
          toString f.line)) ∧
    st.map formatFrame ≠ [] ∧
    GetCallStack (some (NewWithStack d st'))
      = some ((st'.takeWhile (fun f => f.function != "unknown")).map
          formatFrame) := by
  have hself : st.takeWhile (fun f => f.function != "unknown") = st := by
    rw [List.takeWhile_eq_self_iff]
    intro f hf
    simp [bne, hall f hf]
  refine ⟨rfl, ?_, ?_, ?_⟩
  · have h1 : GetCallStack (some (NewWithStack d st)) = some (renderStack st) :=
      rfl
    rw [h1, renderStack_eq_takeWhile st hne, hself]
    rfl
  · obtain ⟨f, t, rfl⟩ := List.exists_cons_of_ne_nil hne
    simp
  · have h1 : GetCallStack (some (NewWithStack d st')) = some (renderStack st') :=
      rfl
    rw [h1, renderStack_eq_takeWhile st' hne']

/-- C7 witness: a concrete instance of `C7_get_call_stack`, with a one-frame
capture and a capture that stops early at an unknown frame. -/
theorem C7_get_call_stack_witness :
    GetCallStack (some (New "boom")) = none ∧
    GetCallStack (some (NewWithStack "boom"
        [⟨"main.main", "/app/main.go", 10⟩]))
      = some (([⟨"main.main", "/app/main.go", 10⟩] : Stack).map
          (fun f => f.function ++ "\n\t" ++ f.file ++ ":" ++
            toString f.line)) ∧
    ([⟨"main.main", "/app/main.go", 10⟩] : Stack).map formatFrame ≠ [] ∧
    GetCallStack (some (NewWithStack "boom"
        [⟨"go.fn", "/app/a.go", 3⟩, ⟨"unknown", "", 0⟩]))
      = some ((([⟨"go.fn", "/app/a.go", 3⟩, ⟨"unknown", "", 0⟩] : Stack).takeWhile
          (fun f => f.function != "unknown")).map formatFrame) :=
  C7_get_call_stack "boom" [⟨"main.main", "/app/main.go", 10⟩]
    [⟨"go.fn", "/app/a.go", 3⟩, ⟨"unknown", "", 0⟩]
    (by decide) (by decide) (by decide)

/-- C8 counterexample: one `WrapWithCustomErr` wrap followed by one unwrap
does not return the original error — the unwrap yields the
`fmt.Errorf("%w: %v", ...)` composite, and the original error is only
formatted into its message, never wrapped. -/
theorem C8_roundtrip_counterexample :
    Unwrap (WrapWithCustomErr (some (.stdErr "db failure")) ErrNotFound [])
      ≠ some (.stdErr "db failure") := by
  simp [WrapWithCustomErr, Unwrap, GoErr.unwrap, customErrComposite]

/-- C8 amended: for the single-link wrap-family functions (`Wrap`, `Wrapf`,
`AddCustomCallStack`), wrapping a non-nil error `n` times in any combination
and unwrapping `n` times yields exactly the original error, and no smaller
number of unwraps does; the claim fails for `WrapWithCustomErr` /
`WrapfWithCustomErr`, whose unwrap chain leads to the sentinel composite and
never back to the original error. -/
theorem C8_roundtrip_amended (steps : List WrapStep) (e : GoErr) (k : Nat)
    (hk : k < steps.length) :
    Unwrap^[steps.length] (applyWrapSteps steps (some e)) = some e ∧
    Unwrap^[k] (applyWrapSteps steps (some e)) ≠ some e := by
  constructor
  · rw [iterate_unwrap_applyWrapSteps e steps.length steps le_rfl]
    simp [applyWrapSteps]
  · rw [iterate_unwrap_applyWrapSteps e k steps hk.le]
    intro hEq
    have hdepth := unwrapDepth_applyWrapSteps (steps.drop k) e e hEq
    have hlen : (steps.drop k).length = steps.length - k := List.length_drop k steps
    omega

/-- C8 witness: a concrete instance of `C8_roundtrip_amended` with one
`Wrap` step: one unwrap recovers the original error, zero unwraps do not. -/
theorem C8_roundtrip_amended_witness :
    Unwrap^[([WrapStep.wrapStep "ctx" []] : List WrapStep).length]
        (applyWrapSteps [WrapStep.wrapStep "ctx" []] (some (.stdErr "db")))
      = some (.stdErr "db") ∧
    Unwrap^[0] (applyWrapSteps [WrapStep.wrapStep "ctx" []] (some (.stdErr "db")))
      ≠ some (.stdErr "db") :=
  C8_roundtrip_amended [WrapStep.wrapStep "ctx" []] (.stdErr "db") 0
    (by decide)

/-- C9: calling `GetCallStack()` on a nil `*Error` receiver returns nil
without dereferencing the receiver — the same empty result as a framework
error with no captured stack. -/
theorem C9_nil_receiver_call_stack (id : Option Sentinel) (d : String)
    (c : Option GoErr) :
    GetCallStack none = none ∧
    GetCallStack (some (.fwErr id d c none)) = none :=
  ⟨rfl, rfl⟩

/-- C10: the methods `(*Error).Wrap(err)` and `(*Error).Wrapf(format, err)`
return nil not only when `err` is nil but also whenever the receiver's
`Description` is empty, even for non-nil `err` — wrapping through a
description-less framework error silently discards the wrapped error. -/
theorem C10_method_wrap_empty_description (id id' : Option Sentinel)
    (c c' : Option GoErr) (st st' : Option Stack) (d format : String)
    (err : GoErr) (cs cs' : Stack) :
    GoErr.Wrap (.fwErr id "" c st) (some err) cs = none ∧
    GoErr.Wrapf (.fwErr id "" c st) format (some err) cs = none ∧
    GoErr.Wrap (.fwErr id' d c' st') none cs' = none ∧
    GoErr.Wrapf (.fwErr id' d c' st') format none cs' = none := by
  refine ⟨?_, ?_, rfl, rfl⟩ <;> simp [GoErr.Wrap, GoErr.Wrapf]

end GoErrors
